import Mathlib

/-!
Verification development for the ColdQuery Session & Execution Manager.

The pure request-handling logic (query handlers, the write-access gates) is
embedded directly from the Python sources under src/coldquery.  The session
manager, the session-bound executor and executor resolution live in
coldquery.core (context.py, executor.py, session.py), which is not part of
the source tree made available here; those parts are modelled from the
specification, as flagged on each definition.
-/

namespace ColdQuery

/-- Normalized statement outcome, mirroring coldquery.core.executor.QueryResult
as exercised by the handlers and the unit-test mocks: rows, row count and
column descriptors.  Cell values are modelled as integers; the claims under
study never inspect cell contents. -/
structure QueryResult where
  rows : List (List (String × Int))
  row_count : Nat
  fields : List String
deriving Repr, DecidableEq

/-- Error taxonomy at the handler boundary (spec section 7).  validation models
the ValueError raised on missing statement text; accessDenied models the
PermissionError raised by security/access_control.py; sessionNotFound and
sessionClosed model the session-lifecycle errors; statementError models a
database rejection. -/
inductive CQError where
  | validation
  | accessDenied
  | sessionNotFound
  | sessionClosed
  | statementError
deriving Repr, DecidableEq

/-- Python truthiness of an optional string: None and the empty string are
falsy, any non-empty string is truthy. -/
def strTruthy : Option String → Bool
  | none => false
  | some s => !s.isEmpty

/-- Python truthiness of an optional boolean: None and False are falsy. -/
def boolTruthy : Option Bool → Bool
  | none => false
  | some b => b

namespace AccessControl

/-- Embeds require_write_access from src/coldquery/security/access_control.py:
raises PermissionError (modelled as CQError.accessDenied) exactly when
`not session_id and not autocommit` holds under Python truthiness. -/
def require_write_access (session_id : Option String) (autocommit : Option Bool) :
    Except CQError Unit :=
  if !strTruthy session_id && !boolTruthy autocommit then
    .error .accessDenied
  else
    .ok ()

end AccessControl

/-- Error type of the gate in src/coldquery/security/auth.py, which raises
WriteAccessDeniedError (a distinct exception type from the PermissionError of
access_control.py). -/
inductive AuthError where
  | writeAccessDenied
deriving Repr, DecidableEq

namespace Auth

/-- Embeds require_write_access from src/coldquery/security/auth.py: raises
WriteAccessDeniedError exactly when `not session_id and not autocommit` holds
under Python truthiness. -/
def require_write_access (session_id : Option String) (autocommit : Option Bool) :
    Except AuthError Unit :=
  if !strTruthy session_id && !boolTruthy autocommit then
    .error .writeAccessDenied
  else
    .ok ()

end Auth

/-- Abstract behaviour of the underlying database engine for a single
statement: given statement text and optional positional parameters, either a
QueryResult or an engine error message. -/
structure Db where
  run : String → Option (List Int) → Except String QueryResult

/-- Modelled from the spec: transaction states of the session-bound executor
(spec section 4.3) — OPEN, then the terminal COMMITTED or ROLLED_BACK;
coldquery/core/executor.py is not in the available source tree. -/
inductive TxState where
  | OPEN
  | COMMITTED
  | ROLLED_BACK
deriving Repr, DecidableEq

/-- Modelled from the spec: the session-bound executor of spec section 4.3 —
one pinned connection with transaction state and the live savepoint set
(most recent first); coldquery/core/executor.py is not in the available
source tree. -/
structure SessionExecutor where
  state : TxState
  savepoints : List String
deriving Repr, DecidableEq

namespace SessionExecutor

/-- Modelled from the spec: execute runs inside the open transaction and
fails with SessionClosed on a terminal executor (spec section 4.3). -/
def execute (e : SessionExecutor) (db : Db) (sql : String) (ps : Option (List Int)) :
    Except CQError (SessionExecutor × QueryResult) :=
  match e.state with
  | .OPEN =>
    match db.run sql ps with
    | .ok r => .ok (e, r)
    | .error _ => .error .statementError
  | _ => .error .sessionClosed

/-- Modelled from the spec: savepoint issues a named savepoint; a reused name
re-targets rather than stacks (spec section 3); fails with SessionClosed when
not OPEN. -/
def savepoint (e : SessionExecutor) (name : String) : Except CQError SessionExecutor :=
  match e.state with
  | .OPEN => .ok { e with savepoints := name :: e.savepoints.filter (fun n => n ≠ name) }
  | _ => .error .sessionClosed

/-- Modelled from the spec: rollback_to reverts to a named savepoint,
discarding the savepoints created after it, without ending the transaction;
fails with SessionClosed when not OPEN. -/
def rollback_to (e : SessionExecutor) (name : String) : Except CQError SessionExecutor :=
  match e.state with
  | .OPEN =>
    if e.savepoints.contains name then
      .ok { e with savepoints := e.savepoints.dropWhile (fun n => n ≠ name) }
    else
      .error .statementError
  | _ => .error .sessionClosed

/-- Modelled from the spec: release discards a named savepoint without
reverting its effects; fails with SessionClosed when not OPEN. -/
def release (e : SessionExecutor) (name : String) : Except CQError SessionExecutor :=
  match e.state with
  | .OPEN =>
    if e.savepoints.contains name then
      .ok { e with savepoints := e.savepoints.filter (fun n => n ≠ name) }
    else
      .error .statementError
  | _ => .error .sessionClosed

/-- Modelled from the spec: commit transitions OPEN to COMMITTED; on a
terminal executor it fails with SessionClosed (spec section 4.3). -/
def commit (e : SessionExecutor) : Except CQError SessionExecutor :=
  match e.state with
  | .OPEN => .ok { state := .COMMITTED, savepoints := [] }
  | _ => .error .sessionClosed

/-- Modelled from the spec: rollback transitions OPEN to ROLLED_BACK; on a
terminal executor it fails with SessionClosed (spec section 4.3). -/
def rollback (e : SessionExecutor) : Except CQError SessionExecutor :=
  match e.state with
  | .OPEN => .ok { state := .ROLLED_BACK, savepoints := [] }
  | _ => .error .sessionClosed

end SessionExecutor

/-- Modelled from the spec: a registered Session (spec section 3) — its
executor, last-touched timestamp and configured idle TTL, in abstract time
units; coldquery/core/session.py is not in the available source tree. -/
structure Session where
  exec : SessionExecutor
  lastTouched : Nat
  ttl : Nat
deriving Repr, DecidableEq

/-- A session is expired when its idle time strictly exceeds its TTL. -/
def Session.expired (s : Session) (now : Nat) : Bool :=
  s.ttl < now - s.lastTouched

/-- Modelled from the spec: the process-wide session registry (spec section
4.4) — the map from identifier to live Session, the set of all identifiers
ever minted, and the minting counter; coldquery/core/session.py is not in the
available source tree. -/
structure SessionManager where
  sessions : List (String × Session)
  usedIds : List String
  counter : Nat
deriving Repr, DecidableEq

/-- Identifier minting, modelled as an injective function of the monotone
minting counter (the spec asks for fresh, never reused identifiers;
unguessability is outside the model).  The identifier is never the empty
string. -/
def mintId (n : Nat) : String :=
  String.mk (List.replicate (n + 1) 's')

/-- Decidable characterisation of an identifier minted below a counter bound:
its length determines the counter value it was minted at. -/
def minted (counter : Nat) (sid : String) : Prop :=
  1 ≤ sid.length ∧ sid.length ≤ counter ∧ sid = mintId (sid.length - 1)

instance (counter : Nat) (sid : String) : Decidable (minted counter sid) := by
  unfold minted; infer_instance

/-- Lookup of a registered session by identifier. -/
def findSession : List (String × Session) → String → Option Session
  | [], _ => none
  | (k, s) :: rest, sid => if k = sid then some s else findSession rest sid

namespace SessionManager

/-- Modelled from the spec: begin checks out a connection, starts its
transaction, mints a fresh identifier, registers the OPEN session and returns
the identifier (spec section 4.4). -/
def begin (m : SessionManager) (now ttl : Nat) : String × SessionManager :=
  let sid := mintId m.counter
  (sid,
   { sessions := (sid, { exec := { state := .OPEN, savepoints := [] },
                         lastTouched := now, ttl := ttl }) :: m.sessions,
     usedIds := sid :: m.usedIds,
     counter := m.counter + 1 })

/-- Modelled from the spec: resolve fails with SessionNotFound if the
identifier is absent or its executor already terminal (spec section 4.4);
it never mutates the registry. -/
def resolve (m : SessionManager) (sid : String) : Except CQError Session :=
  match findSession m.sessions sid with
  | some s => if s.exec.state = TxState.OPEN then .ok s else .error .sessionNotFound
  | none => .error .sessionNotFound

/-- Modelled from the spec: end drives the executor through the matching
terminal transition and deregisters the session; ending an unknown or
already-ended session fails with SessionNotFound (spec section 4.4). -/
def end_session (m : SessionManager) (sid : String) (commit : Bool) :
    Except CQError SessionManager :=
  match findSession m.sessions sid with
  | none => .error .sessionNotFound
  | some s =>
    match (if commit then s.exec.commit else s.exec.rollback) with
    | .error e => .error e
    | .ok _ => .ok { m with sessions := m.sessions.filter (fun p => p.1 ≠ sid) }

/-- Modelled from the spec: touch updates the last-touched timestamp of a
registered session (spec section 4.4). -/
def touch (m : SessionManager) (sid : String) (now : Nat) : SessionManager :=
  { m with
    sessions := m.sessions.map
      (fun p => if p.1 = sid then (p.1, { p.2 with lastTouched := now }) else p) }

/-- Terminal state recorded for a session evicted by the reaper: the forced
rollback of its executor (under the registry invariant the executor is OPEN,
so this is ROLLED_BACK). -/
def reapOne (e : SessionExecutor) : TxState :=
  match e.rollback with
  | .ok e2 => e2.state
  | .error _ => e.state

/-- Modelled from the spec: one reaper pass — every registered session whose
idle time exceeds its TTL is forcibly rolled back and deregistered; returns
the surviving registry and the evicted identifiers with the terminal state
each executor was driven to (spec section 4.4). -/
def reap (m : SessionManager) (now : Nat) :
    SessionManager × List (String × TxState) :=
  ({ m with sessions := m.sessions.filter (fun p => !p.2.expired now) },
   (m.sessions.filter (fun p => p.2.expired now)).map
     (fun p => (p.1, reapOne p.2.exec)))

/-- Registry well-formedness: registered keys are distinct, every key was
minted, every registered executor is OPEN, and every identifier ever minted
is determined by a counter value below the current one. -/
def WF (m : SessionManager) : Prop :=
  (m.sessions.map Prod.fst).Nodup ∧
  (∀ p ∈ m.sessions, p.1 ∈ m.usedIds) ∧
  (∀ p ∈ m.sessions, p.2.exec.state = TxState.OPEN) ∧
  (∀ sid ∈ m.usedIds, minted m.counter sid)

instance (m : SessionManager) : Decidable (WF m) := by
  unfold WF; infer_instance

end SessionManager

/-- The empty registry at process startup. -/
def emptyMgr : SessionManager :=
  { sessions := [], usedIds := [], counter := 0 }

/-- Target of executor resolution: the shared connection-pool executor, or a
live session-bound executor. -/
inductive ExecTarget where
  | pool
  | session (sid : String) (s : Session)
deriving Repr, DecidableEq

/-- Modelled from the spec: resolve_executor from coldquery/core/context.py
(not in the available source tree) — with no session identifier the
connection-pool executor is used; with one, it must resolve to a live
session-bound executor, SessionNotFound otherwise (spec section 2). -/
def resolveExecutor (m : SessionManager) : Option String → Except CQError ExecTarget
  | none => .ok .pool
  | some sid =>
    match m.resolve sid with
    | .ok s => .ok (.session sid s)
    | .error e => .error e

/-- Run one statement on a resolved executor: the pool executor wraps the call
in its own unit of work; a session executor runs it inside the open
transaction. -/
def runOnTarget (db : Db) (tgt : ExecTarget) (sql : String) (ps : Option (List Int)) :
    Except CQError QueryResult :=
  match tgt with
  | .pool =>
    match db.run sql ps with
    | .ok r => .ok r
    | .error _ => .error .statementError
  | .session _ s =>
    match s.exec.execute db sql ps with
    | .ok (_, r) => .ok r
    | .error e => .error e

/-- Inbound action envelope consumed by the query handlers (spec section 6):
optional statement text, positional parameters, session identifier,
autocommit acknowledgment and the explain-only analyze flag. -/
structure Params where
  sql : Option String
  ps : Option (List Int)
  session_id : Option String
  autocommit : Option Bool
  analyze : Option Bool
deriving Repr, DecidableEq

instance {ε α : Type} [DecidableEq ε] [DecidableEq α] : DecidableEq (Except ε α)
  | .ok a, .ok b =>
    if h : a = b then .isTrue (by rw [h]) else .isFalse (by intro hh; cases hh; exact h rfl)
  | .ok _, .error _ => .isFalse (by intro hh; cases hh)
  | .error _, .ok _ => .isFalse (by intro hh; cases hh)
  | .error a, .error b =>
    if h : a = b then .isTrue (by rw [h]) else .isFalse (by intro hh; cases hh; exact h rfl)

/-- Observable outcome of one handler invocation: the result (or error),
whether the write gate was invoked, whether executor resolution was reached,
and the statements submitted to an executor, in order. -/
structure HandlerOut where
  result : Except CQError QueryResult
  accessChecked : Bool
  resolveAttempted : Bool
  executed : List String
deriving Repr, DecidableEq

/-- Python `if not sql` on an optional string: missing and empty are
rejected alike; returns the usable statement text otherwise. -/
def getSql : Option String → Option String
  | none => none
  | some s => if s.isEmpty then none else some s

/-- Embeds read_handler from src/coldquery/actions/query/read.py: reject
missing/empty sql with ValueError, resolve the executor, execute the
statement.  The enrich_response serialization middleware is outside the
embedding; the result is kept as a QueryResult. -/
def read_handler (db : Db) (m : SessionManager) (p : Params) : HandlerOut :=
  match getSql p.sql with
  | none =>
    { result := .error .validation, accessChecked := false,
      resolveAttempted := false, executed := [] }
  | some sql =>
    match resolveExecutor m p.session_id with
    | .error e =>
      { result := .error e, accessChecked := false,
        resolveAttempted := true, executed := [] }
    | .ok tgt =>
      { result := runOnTarget db tgt sql p.ps, accessChecked := false,
        resolveAttempted := true, executed := [sql] }

/-- Embeds write_handler from src/coldquery/actions/query/write.py: reject
missing/empty sql with ValueError, then require_write_access from
security/access_control.py, then resolve the executor and execute the
statement. -/
def write_handler (db : Db) (m : SessionManager) (p : Params) : HandlerOut :=
  match getSql p.sql with
  | none =>
    { result := .error .validation, accessChecked := false,
      resolveAttempted := false, executed := [] }
  | some sql =>
    match AccessControl.require_write_access p.session_id p.autocommit with
    | .error e =>
      { result := .error e, accessChecked := true,
        resolveAttempted := false, executed := [] }
    | .ok _ =>
      match resolveExecutor m p.session_id with
      | .error e =>
        { result := .error e, accessChecked := true,
          resolveAttempted := true, executed := [] }
      | .ok tgt =>
        { result := runOnTarget db tgt sql p.ps, accessChecked := true,
          resolveAttempted := true, executed := [sql] }

/-- The statement text built by explain_handler: EXPLAIN, then ANALYZE when
the analyze flag is truthy, then FORMAT JSON, space-joined and followed by a
space and the caller statement. -/
def explainSql (analyze : Option Bool) (sql : String) : String :=
  (if boolTruthy analyze then "EXPLAIN ANALYZE FORMAT JSON " else "EXPLAIN FORMAT JSON ")
    ++ sql

/-- Embeds explain_handler from src/coldquery/actions/query/explain.py: reject
missing/empty sql with ValueError, build the EXPLAIN statement, resolve the
executor and execute it.  No write gate is involved anywhere in the
handler. -/
def explain_handler (db : Db) (m : SessionManager) (p : Params) : HandlerOut :=
  match getSql p.sql with
  | none =>
    { result := .error .validation, accessChecked := false,
      resolveAttempted := false, executed := [] }
  | some sql =>
    match resolveExecutor m p.session_id with
    | .error e =>
      { result := .error e, accessChecked := false,
        resolveAttempted := true, executed := [] }
    | .ok tgt =>
      { result := runOnTarget db tgt (explainSql p.analyze sql) p.ps,
        accessChecked := false, resolveAttempted := true,
        executed := [explainSql p.analyze sql] }

/-- Embeds the health route from src/coldquery/app.py (lines 43-48): it
returns a JSON body with status ok unconditionally.  The route has no access
to any executor; the second component records the statements it submits to
the database — none. -/
def health (_db : Db) : List (String × String) × List String :=
  ([("status", "ok")], [])

/-- A database behaviour on which every statement fails: used to observe that
the health route reports ok independently of the database. -/
def failingDb : Db :=
  { run := fun _ _ => .error "connection refused" }

/-- A database behaviour on which every statement succeeds with an empty
one-row result. -/
def okDb : Db :=
  { run := fun _ _ => .ok { rows := [], row_count := 1, fields := [] } }

/-- Registry-affecting operations, for reasoning about whole histories of the
session manager (modelled from spec section 4.4). -/
inductive Op where
  | begin (now ttl : Nat)
  | endSession (sid : String) (commit : Bool)
  | reap (now : Nat)
  | touch (sid : String) (now : Nat)
deriving Repr, DecidableEq

/-- One registry step; the optional string is the identifier returned when
the operation is a begin.  A failing end leaves the registry unchanged. -/
def step (m : SessionManager) : Op → SessionManager × Option String
  | .begin now ttl =>
    let r := m.begin now ttl
    (r.2, some r.1)
  | .endSession sid c =>
    match m.end_session sid c with
    | .ok m2 => (m2, none)
    | .error _ => (m, none)
  | .reap now => ((m.reap now).1, none)
  | .touch sid now => (m.touch sid now, none)

/-- Run a history of operations; collects the identifiers returned by the
begin operations, in order. -/
def run : SessionManager → List Op → SessionManager × List String
  | m, [] => (m, [])
  | m, op :: ops =>
    let r := step m op
    let rest := run r.1 ops
    (rest.1, r.2.toList ++ rest.2)

/-- The registry with one already-ended session identifier and nothing live:
the stale-identifier scenario of the session-lifecycle claims. -/
def staleMgr : SessionManager :=
  { sessions := [], usedIds := [mintId 0], counter := 1 }

/-- A registry holding one live session that is long past its TTL. -/
def reapMgr : SessionManager :=
  { sessions := [(mintId 0,
      { exec := { state := .OPEN, savepoints := [] }, lastTouched := 0, ttl := 3 })],
    usedIds := [mintId 0], counter := 1 }

/-- A write request carrying no sql at all, with neither session_id nor
autocommit. -/
def reqNoSql : Params :=
  { sql := none, ps := none, session_id := none, autocommit := none, analyze := none }

/-- A write request whose session_id is supplied but is the empty string. -/
def reqEmptySid : Params :=
  { sql := some "DELETE FROM t", ps := none, session_id := some "",
    autocommit := none, analyze := none }

/-- A request with no sql but with a session_id and autocommit both supplied. -/
def reqNoSqlWithCreds : Params :=
  { sql := none, ps := none, session_id := some "sess", autocommit := some true,
    analyze := none }

/-- A plain denied write request: non-empty sql, no session_id, no
autocommit. -/
def reqPlainWrite : Params :=
  { sql := some "INSERT INTO t VALUES (1)", ps := none, session_id := none,
    autocommit := none, analyze := none }

/-- An explain request with analyze requested, no session, no autocommit. -/
def reqExplain : Params :=
  { sql := some "SELECT 2", ps := none, session_id := none, autocommit := none,
    analyze := some true }

/-- The terminal COMMITTED session executor, for exercising the terminal-state
claims at a concrete input. -/
def doneExec : SessionExecutor :=
  { state := .COMMITTED, savepoints := [] }

theorem strTruthy_false_iff (s : Option String) :
    strTruthy s = false ↔ (s = none ∨ s = some "") := by
  cases s with
  | none => simp [strTruthy]
  | some str =>
    simp [strTruthy, String.isEmpty_iff]

theorem boolTruthy_false_iff (a : Option Bool) :
    boolTruthy a = false ↔ (a = none ∨ a = some false) := by
  cases a with
  | none => simp [boolTruthy]
  | some b => cases b <;> simp [boolTruthy]

theorem boolTruthy_true_iff (a : Option Bool) :
    boolTruthy a = true ↔ a = some true := by
  cases a with
  | none => simp [boolTruthy]
  | some b => cases b <;> simp [boolTruthy]

theorem gate_denies_iff (s : Option String) (a : Option Bool) :
    AccessControl.require_write_access s a = .error CQError.accessDenied ↔
      (strTruthy s = false ∧ boolTruthy a = false) := by
  unfold AccessControl.require_write_access
  cases hs : strTruthy s <;> cases ha : boolTruthy a <;> simp

theorem gate_ok_iff (s : Option String) (a : Option Bool) :
    AccessControl.require_write_access s a = .ok () ↔
      (strTruthy s = true ∨ boolTruthy a = true) := by
  unfold AccessControl.require_write_access
  cases hs : strTruthy s <;> cases ha : boolTruthy a <;> simp

theorem auth_gate_denies_iff (s : Option String) (a : Option Bool) :
    Auth.require_write_access s a = .error AuthError.writeAccessDenied ↔
      (strTruthy s = false ∧ boolTruthy a = false) := by
  unfold Auth.require_write_access
  cases hs : strTruthy s <;> cases ha : boolTruthy a <;> simp

theorem auth_gate_ok_iff (s : Option String) (a : Option Bool) :
    Auth.require_write_access s a = .ok () ↔
      (strTruthy s = true ∨ boolTruthy a = true) := by
  unfold Auth.require_write_access
  cases hs : strTruthy s <;> cases ha : boolTruthy a <;> simp

theorem execute_no_denied (e : SessionExecutor) (db : Db) (sql : String)
    (ps : Option (List Int)) :
    e.execute db sql ps ≠ .error CQError.accessDenied := by
  unfold SessionExecutor.execute
  cases e.state <;> simp
  cases db.run sql ps <;> simp

theorem runOnTarget_no_denied (db : Db) (tgt : ExecTarget) (sql : String)
    (ps : Option (List Int)) :
    runOnTarget db tgt sql ps ≠ .error CQError.accessDenied := by
  cases tgt with
  | pool =>
    simp only [runOnTarget]
    cases db.run sql ps <;> simp
  | session sid s =>
    simp only [runOnTarget]
    cases hx : s.exec.execute db sql ps with
    | ok r => simp
    | error e =>
      have := execute_no_denied s.exec db sql ps
      rw [hx] at this
      simpa using this

theorem resolveExecutor_error_shape {m : SessionManager} {o : Option String}
    {e : CQError} (h : resolveExecutor m o = .error e) : e = CQError.sessionNotFound := by
  cases o with
  | none => simp [resolveExecutor] at h
  | some sid =>
    simp only [resolveExecutor, SessionManager.resolve] at h
    cases hf : findSession m.sessions sid with
    | none => rw [hf] at h; simp at h; exact h.symm
    | some s =>
      rw [hf] at h
      by_cases hs : s.exec.state = TxState.OPEN <;> simp [hs] at h
      exact h.symm

theorem length_mintId (n : Nat) : (mintId n).length = n + 1 := by
  simp [mintId, String.length]

theorem minted_mono {c1 c2 : Nat} (h : c1 ≤ c2) {sid : String} :
    minted c1 sid → minted c2 sid :=
  fun ⟨h1, h2, h3⟩ => ⟨h1, le_trans h2 h, h3⟩

theorem not_minted_self (c : Nat) : ¬ minted c (mintId c) := by
  rintro ⟨-, h2, -⟩
  rw [length_mintId] at h2
  omega

theorem minted_mintId {c n : Nat} (h : n < c) : minted c (mintId n) := by
  refine ⟨?_, ?_, ?_⟩ <;> rw [length_mintId]
  · omega
  · omega
  · simp

theorem fresh_not_used {m : SessionManager} (hWF : m.WF) :
    mintId m.counter ∉ m.usedIds :=
  fun hmem => not_minted_self m.counter (hWF.2.2.2 _ hmem)

theorem findSession_none_of_not_mem {l : List (String × Session)} {sid : String}
    (h : sid ∉ l.map Prod.fst) : findSession l sid = none := by
  induction l with
  | nil => rfl
  | cons p rest ih =>
    obtain ⟨k, s⟩ := p
    simp only [List.map_cons, List.mem_cons] at h
    push_neg at h
    simp only [findSession, if_neg (Ne.symm h.1)]
    exact ih h.2

theorem mem_of_findSession_some {l : List (String × Session)} {sid : String}
    {s : Session} (h : findSession l sid = some s) : (sid, s) ∈ l := by
  induction l with
  | nil => simp [findSession] at h
  | cons p rest ih =>
    obtain ⟨k, s0⟩ := p
    simp only [findSession] at h
    by_cases hk : k = sid
    · rw [if_pos hk] at h
      subst hk
      cases h
      exact List.mem_cons_self _ _
    · rw [if_neg hk] at h
      exact List.mem_cons_of_mem _ (ih h)

theorem findSession_none_iff {l : List (String × Session)} {sid : String} :
    findSession l sid = none ↔ sid ∉ l.map Prod.fst := by
  constructor
  · intro h hmem
    induction l with
    | nil => simp at hmem
    | cons p rest ih =>
      obtain ⟨k, s0⟩ := p
      simp only [findSession] at h
      simp only [List.map_cons, List.mem_cons] at hmem
      by_cases hk : k = sid
      · rw [if_pos hk] at h
        cases h
      · rw [if_neg hk] at h
        rcases hmem with hmem | hmem
        · exact hk hmem.symm
        · exact ih h hmem
  · exact findSession_none_of_not_mem

theorem findSession_filter_none {l : List (String × Session)} {sid : String}
    (f : String × Session → Bool) (h : findSession l sid = none) :
    findSession (l.filter f) sid = none := by
  rw [findSession_none_iff] at h ⊢
  intro hmem
  apply h
  simp only [List.mem_map] at hmem ⊢
  obtain ⟨p, hp, hk⟩ := hmem
  exact ⟨p, (List.mem_filter.mp hp).1, hk⟩

theorem findSession_filter_out {l : List (String × Session)} {sid : String}
    {s : Session} {f : String × Session → Bool}
    (hnd : (l.map Prod.fst).Nodup) (h : findSession l sid = some s)
    (hf : f (sid, s) = false) :
    findSession (l.filter f) sid = none := by
  induction l with
  | nil => simp [findSession] at h
  | cons p rest ih =>
    obtain ⟨k, s0⟩ := p
    simp only [List.map_cons, List.nodup_cons] at hnd
    simp only [findSession] at h
    by_cases hk : k = sid
    · subst hk
      rw [if_pos rfl] at h
      cases h
      simp only [List.filter_cons, hf]
      rw [if_neg (by simp)]
      exact findSession_filter_none f (findSession_none_of_not_mem hnd.1)
    · rw [if_neg hk] at h
      simp only [List.filter_cons]
      by_cases hfp : f (k, s0) = true
      · rw [if_pos hfp]
        simp only [findSession, if_neg hk]
        exact ih hnd.2 h
      · rw [if_neg hfp]
        exact ih hnd.2 h

theorem keys_filter_sub {l : List (String × Session)} (f : String × Session → Bool) :
    ((l.filter f).map Prod.fst).Sublist (l.map Prod.fst) :=
  (List.filter_sublist l).map Prod.fst

theorem findSession_touch_none {l : List (String × Session)} {sid tid : String}
    {now : Nat} (h : findSession l sid = none) :
    findSession
      (l.map (fun p => if p.1 = tid then (p.1, { p.2 with lastTouched := now }) else p))
      sid = none := by
  rw [findSession_none_iff] at h ⊢
  intro hmem
  apply h
  simp only [List.map_map, List.mem_map] at hmem ⊢
  obtain ⟨p, hp, hk⟩ := hmem
  refine ⟨p, hp, ?_⟩
  simp only [Function.comp] at hk
  split at hk <;> exact hk

theorem keys_touch (l : List (String × Session)) (tid : String) (now : Nat) :
    (l.map
      (fun p => if p.1 = tid then (p.1, { p.2 with lastTouched := now }) else p)).map
        Prod.fst = l.map Prod.fst := by
  rw [List.map_map]
  apply List.map_congr_left
  intro p _
  simp only [Function.comp]
  split <;> rfl

theorem dead_of_not_used {m : SessionManager} (hWF : m.WF) {sid : String}
    (hnot : sid ∉ m.usedIds) : findSession m.sessions sid = none := by
  cases hf : findSession m.sessions sid with
  | none => rfl
  | some s =>
    exact absurd (hWF.2.1 _ (mem_of_findSession_some hf)) hnot

theorem wf_begin {m : SessionManager} (hWF : m.WF) (now ttl : Nat) :
    (m.begin now ttl).2.WF := by
  obtain ⟨h1, h2, h3, h4⟩ := hWF
  refine ⟨?_, ?_, ?_, ?_⟩
  · simp only [SessionManager.begin, List.map_cons, List.nodup_cons]
    refine ⟨?_, h1⟩
    intro hmem
    apply fresh_not_used ⟨h1, h2, h3, h4⟩
    simp only [List.mem_map] at hmem
    obtain ⟨p, hp, hk⟩ := hmem
    exact hk ▸ h2 p hp
  · intro p hp
    simp only [SessionManager.begin, List.mem_cons] at hp ⊢
    rcases hp with rfl | hp
    · exact Or.inl rfl
    · exact Or.inr (h2 p hp)
  · intro p hp
    simp only [SessionManager.begin, List.mem_cons] at hp
    rcases hp with rfl | hp
    · rfl
    · exact h3 p hp
  · intro sid hmem
    simp only [SessionManager.begin, List.mem_cons] at hmem
    rcases hmem with rfl | hmem
    · exact minted_mintId (Nat.lt_succ_self _)
    · exact minted_mono (Nat.le_succ _) (h4 sid hmem)

theorem wf_of_filter {m : SessionManager} (hWF : m.WF) (f : String × Session → Bool) :
    SessionManager.WF { m with sessions := m.sessions.filter f } := by
  obtain ⟨h1, h2, h3, h4⟩ := hWF
  refine ⟨(keys_filter_sub f).nodup h1, ?_, ?_, h4⟩
  · intro p hp
    exact h2 p (List.mem_filter.mp hp).1
  · intro p hp
    exact h3 p (List.mem_filter.mp hp).1

theorem wf_touch {m : SessionManager} (hWF : m.WF) (sid : String) (now : Nat) :
    (m.touch sid now).WF := by
  obtain ⟨h1, h2, h3, h4⟩ := hWF
  refine ⟨?_, ?_, ?_, h4⟩
  · simpa only [SessionManager.touch, keys_touch] using h1
  · intro p hp
    simp only [SessionManager.touch, List.mem_map] at hp
    obtain ⟨q, hq, hqe⟩ := hp
    have hkey : p.1 = q.1 := by
      subst hqe
      split <;> rfl
    rw [hkey]
    exact h2 q hq
  · intro p hp
    simp only [SessionManager.touch, List.mem_map] at hp
    obtain ⟨q, hq, hqe⟩ := hp
    have hst : p.2.exec = q.2.exec := by
      subst hqe
      split <;> rfl
    rw [hst]
    exact h3 q hq

theorem end_session_ok_shape {m : SessionManager} {sid : String} {c : Bool}
    {m2 : SessionManager} (h : m.end_session sid c = .ok m2) :
    m2 = { m with sessions := m.sessions.filter (fun p => p.1 ≠ sid) } := by
  unfold SessionManager.end_session at h
  split at h
  · cases h
  · split at h
    · cases h
    · cases h
      rfl

theorem step_endSession_ok {m : SessionManager} {sid : String} {c : Bool}
    {m2 : SessionManager} (he : m.end_session sid c = .ok m2) :
    step m (.endSession sid c) = (m2, none) := by
  simp [step, he]

theorem step_endSession_error {m : SessionManager} {sid : String} {c : Bool}
    {e : CQError} (he : m.end_session sid c = .error e) :
    step m (.endSession sid c) = (m, none) := by
  simp [step, he]

theorem wf_step {m : SessionManager} (hWF : m.WF) (op : Op) : (step m op).1.WF := by
  cases op with
  | begin now ttl => exact wf_begin hWF now ttl
  | endSession sid c =>
    cases he : m.end_session sid c with
    | ok m2 =>
      rw [step_endSession_ok he]
      rw [end_session_ok_shape he]
      exact wf_of_filter hWF _
    | error e =>
      rw [step_endSession_error he]
      exact hWF
  | reap now =>
    simp only [step, SessionManager.reap]
    exact wf_of_filter hWF _
  | touch sid now => exact wf_touch hWF sid now

theorem wf_run {m : SessionManager} (hWF : m.WF) (ops : List Op) :
    (run m ops).1.WF := by
  induction ops generalizing m with
  | nil => exact hWF
  | cons op ops ih => exact ih (wf_step hWF op)

theorem usedIds_step_mono {m : SessionManager} (op : Op) {x : String}
    (hx : x ∈ m.usedIds) : x ∈ (step m op).1.usedIds := by
  cases op with
  | begin now ttl => exact List.mem_cons_of_mem _ hx
  | endSession sid c =>
    cases he : m.end_session sid c with
    | ok m2 =>
      rw [step_endSession_ok he]
      rw [end_session_ok_shape he]
      exact hx
    | error e =>
      rw [step_endSession_error he]
      exact hx
  | reap now => exact hx
  | touch sid now => exact hx

theorem usedIds_step_sub {m : SessionManager} (op : Op) {x : String}
    (hx : x ∈ (step m op).1.usedIds) :
    x ∈ (step m op).2.toList ∨ x ∈ m.usedIds := by
  cases op with
  | begin now ttl =>
    simp only [step, SessionManager.begin, List.mem_cons] at hx
    rcases hx with rfl | hx
    · exact Or.inl (by simp [step, SessionManager.begin])
    · exact Or.inr hx
  | endSession sid c =>
    cases he : m.end_session sid c with
    | ok m2 =>
      rw [step_endSession_ok he] at hx
      rw [end_session_ok_shape he] at hx
      exact Or.inr hx
    | error e =>
      rw [step_endSession_error he] at hx
      exact Or.inr hx
  | reap now => exact Or.inr hx
  | touch sid now => exact Or.inr hx

theorem usedIds_run_sub {m : SessionManager} (ops : List Op) {x : String}
    (hx : x ∈ (run m ops).1.usedIds) :
    x ∈ (run m ops).2 ∨ x ∈ m.usedIds := by
  induction ops generalizing m with
  | nil => exact Or.inr hx
  | cons op ops ih =>
    simp only [run, List.mem_append] at hx ⊢
    rcases ih hx with h | h
    · exact Or.inl (Or.inr h)
    · rcases usedIds_step_sub op h with h2 | h2
      · exact Or.inl (Or.inl h2)
      · exact Or.inr h2

theorem begin_returns_fresh {m : SessionManager} (hWF : m.WF) (now ttl : Nat) :
    (m.begin now ttl).1 ∉ m.usedIds :=
  fresh_not_used hWF

theorem begin_id_used (m : SessionManager) (now ttl : Nat) :
    (m.begin now ttl).1 ∈ (m.begin now ttl).2.usedIds :=
  List.mem_cons_self _ _

theorem run_ids_fresh {m : SessionManager} (hWF : m.WF) (ops : List Op) :
    (run m ops).2.Nodup ∧ ∀ x ∈ (run m ops).2, x ∉ m.usedIds := by
  induction ops generalizing m with
  | nil => exact ⟨List.nodup_nil, by simp [run]⟩
  | cons op ops ih =>
    obtain ⟨ihn, ihf⟩ := ih (wf_step hWF op)
    cases op with
    | begin now ttl =>
      have hstep : step m (.begin now ttl) = ((m.begin now ttl).2, some (m.begin now ttl).1) := rfl
      simp only [run, hstep, Option.toList_some, List.singleton_append]
      constructor
      · rw [List.nodup_cons]
        refine ⟨?_, ihn⟩
        intro hmem
        exact ihf _ hmem (begin_id_used m now ttl)
      · intro x hx
        rcases List.mem_cons.mp hx with rfl | hx
        · exact begin_returns_fresh hWF now ttl
        · intro hxm
          exact ihf x hx (usedIds_step_mono (Op.begin now ttl) hxm)
    | endSession sid c =>
      have h2 : (step m (.endSession sid c)).2 = none := by
        cases he : m.end_session sid c with
        | ok m2 => rw [step_endSession_ok he]
        | error e => rw [step_endSession_error he]
      simp only [run, h2, Option.toList_none, List.nil_append]
      refine ⟨ihn, fun x hx hxm => ihf x hx (usedIds_step_mono (Op.endSession sid c) hxm)⟩
    | reap now =>
      simp only [run, step, Option.toList_none, List.nil_append]
      exact ⟨ihn, fun x hx hxm => ihf x hx (usedIds_step_mono (Op.reap now) hxm)⟩
    | touch sid now =>
      simp only [run, step, Option.toList_none, List.nil_append]
      exact ⟨ihn, fun x hx hxm => ihf x hx (usedIds_step_mono (Op.touch sid now) hxm)⟩

theorem step_preserves_dead {m : SessionManager} {sid : String} (op : Op)
    (hWF : m.WF) (hused : sid ∈ m.usedIds)
    (hdead : findSession m.sessions sid = none) :
    findSession (step m op).1.sessions sid = none ∧ sid ∈ (step m op).1.usedIds := by
  refine ⟨?_, usedIds_step_mono op hused⟩
  cases op with
  | begin now ttl =>
    have hne : mintId m.counter ≠ sid := by
      intro he
      exact fresh_not_used hWF (he ▸ hused)
    simp only [step, SessionManager.begin, findSession, if_neg hne]
    exact hdead
  | endSession sid2 c =>
    cases he : m.end_session sid2 c with
    | ok m2 =>
      rw [step_endSession_ok he, end_session_ok_shape he]
      exact findSession_filter_none _ hdead
    | error e =>
      rw [step_endSession_error he]
      exact hdead
  | reap now =>
    simp only [step, SessionManager.reap]
    exact findSession_filter_none _ hdead
  | touch sid2 now =>
    simp only [step, SessionManager.touch]
    exact findSession_touch_none hdead

theorem run_preserves_dead {m : SessionManager} {sid : String} (ops : List Op)
    (hWF : m.WF) (hused : sid ∈ m.usedIds)
    (hdead : findSession m.sessions sid = none) :
    findSession (run m ops).1.sessions sid = none ∧ sid ∈ (run m ops).1.usedIds := by
  induction ops generalizing m with
  | nil => exact ⟨hdead, hused⟩
  | cons op ops ih =>
    obtain ⟨hd, hu⟩ := step_preserves_dead op hWF hused hdead
    exact ih (wf_step hWF op) hu hd

theorem resolve_dead {m : SessionManager} {sid : String}
    (hdead : findSession m.sessions sid = none) :
    m.resolve sid = .error .sessionNotFound := by
  simp [SessionManager.resolve, hdead]

theorem end_dead {m : SessionManager} {sid : String} (c : Bool)
    (hdead : findSession m.sessions sid = none) :
    m.end_session sid c = .error .sessionNotFound := by
  simp [SessionManager.end_session, hdead]

theorem gate_error_shape {s : Option String} {a : Option Bool} {e : CQError}
    (h : AccessControl.require_write_access s a = .error e) :
    e = CQError.accessDenied := by
  unfold AccessControl.require_write_access at h
  split at h
  · cases h; rfl
  · cases h

theorem gate_denies_iff_explicit (s : Option String) (a : Option Bool) :
    AccessControl.require_write_access s a = .error CQError.accessDenied ↔
      ((s = none ∨ s = some "") ∧ (a = none ∨ a = some false)) := by
  rw [gate_denies_iff, strTruthy_false_iff, boolTruthy_false_iff]

/-- Claim C4: the session-bound executor has no transition out of a
terminal state — once COMMITTED or ROLLED_BACK, each of execute, savepoint,
rollback_to, release, commit and rollback fails with SessionClosed rather
than succeeding as a silent no-op. -/
theorem claim_C4_terminal_rejects_all (e : SessionExecutor) (db : Db) (sql : String)
    (ps : Option (List Int)) (nm : String)
    (h : e.state = TxState.COMMITTED ∨ e.state = TxState.ROLLED_BACK) :
    e.execute db sql ps = .error CQError.sessionClosed ∧
    e.savepoint nm = .error CQError.sessionClosed ∧
    e.rollback_to nm = .error CQError.sessionClosed ∧
    e.release nm = .error CQError.sessionClosed ∧
    e.commit = .error CQError.sessionClosed ∧
    e.rollback = .error CQError.sessionClosed := by
  rcases h with h | h <;>
    exact ⟨by simp [SessionExecutor.execute, h], by simp [SessionExecutor.savepoint, h],
      by simp [SessionExecutor.rollback_to, h], by simp [SessionExecutor.release, h],
      by simp [SessionExecutor.commit, h], by simp [SessionExecutor.rollback, h]⟩

/-- Witness for claim C4 at the concrete COMMITTED executor. -/
theorem claim_C4_witness :
    (doneExec.state = TxState.COMMITTED ∨ doneExec.state = TxState.ROLLED_BACK) ∧
    doneExec.commit = .error CQError.sessionClosed :=
  ⟨Or.inl rfl,
    (claim_C4_terminal_rejects_all doneExec okDb "SELECT 1" none "sp" (Or.inl rfl)).2.2.2.2.1⟩

/-- Claim C7: a read, write or explain request whose sql is missing or empty
fails with a validation error before executor resolution and before any
statement is executed, regardless of session_id and autocommit. -/
theorem claim_C7_validation_first (db : Db) (m : SessionManager) (p : Params)
    (h : p.sql = none ∨ p.sql = some "") :
    (read_handler db m p).result = .error CQError.validation ∧
    (read_handler db m p).resolveAttempted = false ∧
    (read_handler db m p).executed = [] ∧
    (write_handler db m p).result = .error CQError.validation ∧
    (write_handler db m p).resolveAttempted = false ∧
    (write_handler db m p).executed = [] ∧
    (explain_handler db m p).result = .error CQError.validation ∧
    (explain_handler db m p).resolveAttempted = false ∧
    (explain_handler db m p).executed = [] := by
  have hg : getSql p.sql = none := by
    rcases h with h | h <;> rw [h] <;> decide
  simp [read_handler, write_handler, explain_handler, hg]

/-- Witness for claim C7: a request with no sql but with both a session_id
and autocommit supplied is still rejected by validation. -/
theorem claim_C7_witness :
    (reqNoSqlWithCreds.sql = none ∨ reqNoSqlWithCreds.sql = some "") ∧
    (read_handler okDb emptyMgr reqNoSqlWithCreds).result = .error CQError.validation :=
  ⟨Or.inl rfl, (claim_C7_validation_first okDb emptyMgr reqNoSqlWithCreds (Or.inl rfl)).1⟩

/-- Claim C8 counterexample: with session_id supplied but equal to the empty
string and autocommit absent, the gate denies, although the claim as stated
(allows whenever session_id is present) requires it to allow. -/
theorem claim_C8_counterexample :
    AccessControl.require_write_access (some "") none = .error CQError.accessDenied ∧
    (some "" : Option String) ≠ none := by
  refine ⟨by decide, by simp⟩

/-- Claim C8 (amended): the write-access policy is a pure, stateless
predicate — two invocations with equal arguments have identical outcomes —
and it allows exactly when the session_id is present and non-empty, or the
autocommit flag is true. -/
theorem claim_C8_pure_gate (s1 s2 : Option String) (a1 a2 : Option Bool)
    (hs : s1 = s2) (ha : a1 = a2) :
    AccessControl.require_write_access s1 a1 = AccessControl.require_write_access s2 a2 ∧
    (AccessControl.require_write_access s1 a1 = .ok () ↔
      ((∃ str, s1 = some str ∧ str.isEmpty = false) ∨ a1 = some true)) := by
  subst hs
  subst ha
  refine ⟨rfl, ?_⟩
  rw [gate_ok_iff]
  constructor
  · rintro (h | h)
    · left
      cases s1 with
      | none => simp [strTruthy] at h
      | some str => exact ⟨str, rfl, by simpa [strTruthy] using h⟩
    · exact Or.inr ((boolTruthy_true_iff a1).mp h)
  · rintro (⟨str, rfl, hne⟩ | rfl)
    · left
      simp [strTruthy, hne]
    · right
      rfl

/-- Witness for claim C8 at a concrete non-empty session identifier. -/
theorem claim_C8_witness :
    AccessControl.require_write_access (some "abc") none =
      AccessControl.require_write_access (some "abc") none ∧
    (AccessControl.require_write_access (some "abc") none = .ok () ↔
      ((∃ str, (some "abc" : Option String) = some str ∧ str.isEmpty = false) ∨
        (none : Option Bool) = some true)) :=
  claim_C8_pure_gate (some "abc") (some "abc") none none rfl rfl

/-- Claim C9: the two write gates, in security/access_control.py and
security/auth.py, are decision-equivalent — each denies exactly when the
session_id is falsy and the autocommit flag is falsy — differing only in
the exception type raised. -/
theorem claim_C9_gates_equivalent (s : Option String) (a : Option Bool) :
    (AccessControl.require_write_access s a = .ok () ↔
      Auth.require_write_access s a = .ok ()) ∧
    (AccessControl.require_write_access s a = .error CQError.accessDenied ↔
      (strTruthy s = false ∧ boolTruthy a = false)) ∧
    (Auth.require_write_access s a = .error AuthError.writeAccessDenied ↔
      (strTruthy s = false ∧ boolTruthy a = false)) := by
  refine ⟨?_, gate_denies_iff s a, auth_gate_denies_iff s a⟩
  rw [gate_ok_iff, auth_gate_ok_iff]

/-- Witness for claim C9 at the concrete all-absent input. -/
theorem claim_C9_witness :
    AccessControl.require_write_access none none = .error CQError.accessDenied ↔
      (strTruthy none = false ∧ boolTruthy none = false) :=
  (claim_C9_gates_equivalent none none).2.1

/-- Claim C3 counterexample: the health route reports status ok while
submitting no statement at all, even against a database on which every
statement — including SELECT 1 — fails. -/
theorem claim_C3_counterexample :
    (health failingDb).1 = [("status", "ok")] ∧
    (health failingDb).2 = [] ∧
    failingDb.run "SELECT 1" none = .error "connection refused" :=
  ⟨rfl, rfl, rfl⟩

/-- Claim C3 (amended): the health route reports status ok unconditionally
and executes no statement through any executor. -/
theorem claim_C3_health_static (db : Db) :
    health db = ([("status", "ok")], []) := rfl

theorem write_handler_char (db : Db) (m : SessionManager) (p : Params) (s : String)
    (hg : getSql p.sql = some s) :
    write_handler db m p =
      match AccessControl.require_write_access p.session_id p.autocommit with
      | .error e =>
        { result := .error e, accessChecked := true,
          resolveAttempted := false, executed := [] }
      | .ok _ =>
        match resolveExecutor m p.session_id with
        | .error e =>
          { result := .error e, accessChecked := true,
            resolveAttempted := true, executed := [] }
        | .ok tgt =>
          { result := runOnTarget db tgt s p.ps, accessChecked := true,
            resolveAttempted := true, executed := [s] } := by
  simp only [write_handler, hg]

theorem explain_handler_char (db : Db) (m : SessionManager) (p : Params) (s : String)
    (hg : getSql p.sql = some s) :
    explain_handler db m p =
      match resolveExecutor m p.session_id with
      | .error e =>
        { result := .error e, accessChecked := false,
          resolveAttempted := true, executed := [] }
      | .ok tgt =>
        { result := runOnTarget db tgt (explainSql p.analyze s) p.ps,
          accessChecked := false, resolveAttempted := true,
          executed := [explainSql p.analyze s] } := by
  simp only [explain_handler, hg]

theorem getSql_some {p : Params} {s : String} (hs : p.sql = some s)
    (hne : s.isEmpty = false) : getSql p.sql = some s := by
  rw [hs]
  simp [getSql, hne]

theorem explainSql_if (a : Option Bool) (s : String) :
    explainSql a s =
      (if a = some true then "EXPLAIN ANALYZE FORMAT JSON "
        else "EXPLAIN FORMAT JSON ") ++ s := by
  cases a with
  | none => simp [explainSql, boolTruthy]
  | some b => cases b <;> simp [explainSql, boolTruthy]

/-- Claim C1 counterexample: (a) a write request with no sql, no session_id
and no autocommit fails with a validation error, not AccessDenied, although
the claim as stated requires AccessDenied there; (b) a write request whose
session_id is supplied but empty (so not absent) and whose autocommit is
absent fails with AccessDenied, although the claim as stated requires the
access check to pass there. -/
theorem claim_C1_counterexample :
    ((write_handler okDb emptyMgr reqNoSql).result = .error CQError.validation ∧
      (write_handler okDb emptyMgr reqNoSql).result ≠ .error CQError.accessDenied ∧
      reqNoSql.session_id = none ∧ reqNoSql.autocommit = none) ∧
    ((write_handler okDb emptyMgr reqEmptySid).result = .error CQError.accessDenied ∧
      reqEmptySid.session_id ≠ none ∧ reqEmptySid.autocommit = none) := by
  decide

/-- Claim C1 (amended): for every write request whose sql is present and
non-empty, execution fails with AccessDenied iff the session_id is absent or
empty and the autocommit flag is false or absent; when a non-empty session_id
or autocommit=true is supplied, the access check passes and the statement
proceeds to executor resolution (and, when resolution succeeds, the statement
itself is submitted) — regardless of statement content. -/
theorem claim_C1_write_gate (db : Db) (m : SessionManager) (p : Params) (s : String)
    (hs : p.sql = some s) (hne : s.isEmpty = false) :
    ((write_handler db m p).result = .error CQError.accessDenied ↔
      ((p.session_id = none ∨ p.session_id = some "") ∧
        (p.autocommit = none ∨ p.autocommit = some false))) ∧
    (((∃ str, p.session_id = some str ∧ str.isEmpty = false) ∨ p.autocommit = some true) →
      (write_handler db m p).resolveAttempted = true ∧
      ∀ tgt, resolveExecutor m p.session_id = .ok tgt →
        (write_handler db m p).executed = [s]) := by
  have hg := getSql_some hs hne
  rw [write_handler_char db m p s hg]
  cases hgate : AccessControl.require_write_access p.session_id p.autocommit with
  | error e =>
    have he := gate_error_shape hgate
    subst he
    constructor
    · exact ⟨fun _ => (gate_denies_iff_explicit _ _).mp hgate, fun _ => rfl⟩
    · rintro (⟨str, hstr, hsne⟩ | hac)
      · exfalso
        rcases (gate_denies_iff_explicit p.session_id p.autocommit).mp hgate with ⟨hsid, -⟩
        rcases hsid with hsid | hsid
        · rw [hstr] at hsid
          cases hsid
        · rw [hstr] at hsid
          cases hsid
          exact absurd hsne (by decide)
      · exfalso
        rcases (gate_denies_iff_explicit p.session_id p.autocommit).mp hgate with ⟨-, hacd⟩
        rcases hacd with hacd | hacd <;> rw [hac] at hacd <;> cases hacd
  | ok u =>
    constructor
    · cases hr : resolveExecutor m p.session_id with
      | error e =>
        simp only []
        constructor
        · intro hres
          exfalso
          have := resolveExecutor_error_shape hr
          subst this
          cases hres
        · intro hcond
          exfalso
          have hd := (gate_denies_iff_explicit p.session_id p.autocommit).mpr hcond
          rw [hgate] at hd
          cases hd
      | ok tgt =>
        simp only []
        constructor
        · intro hres
          exact absurd hres (runOnTarget_no_denied db tgt s p.ps)
        · intro hcond
          exfalso
          have hd := (gate_denies_iff_explicit p.session_id p.autocommit).mpr hcond
          rw [hgate] at hd
          cases hd
    · intro hcond
      cases hr : resolveExecutor m p.session_id with
      | error e => exact ⟨rfl, fun tgt htgt => absurd htgt (by simp)⟩
      | ok tgt => exact ⟨rfl, fun tgt2 htgt => rfl⟩

/-- Witness for claim C1 at a concrete denied request: non-empty sql, absent
session_id, absent autocommit. -/
theorem claim_C1_witness :
    (write_handler okDb emptyMgr reqPlainWrite).result = .error CQError.accessDenied ↔
      ((reqPlainWrite.session_id = none ∨ reqPlainWrite.session_id = some "") ∧
        (reqPlainWrite.autocommit = none ∨ reqPlainWrite.autocommit = some false)) :=
  (claim_C1_write_gate okDb emptyMgr reqPlainWrite "INSERT INTO t VALUES (1)" rfl
    (by decide)).1

/-- Claim C10: explain_handler never invokes the write-access gate and never
fails with AccessDenied, for any session_id and autocommit including both
absent; and for a non-empty sql, whenever the executor resolves, it submits
exactly one statement: EXPLAIN ANALYZE FORMAT JSON followed by the sql when
analyze is true, EXPLAIN FORMAT JSON followed by the sql otherwise. -/
theorem claim_C10_explain_shape (db : Db) (m : SessionManager) (p : Params) :
    (explain_handler db m p).accessChecked = false ∧
    (explain_handler db m p).result ≠ .error CQError.accessDenied ∧
    (∀ s : String, p.sql = some s → s.isEmpty = false →
      ∀ tgt, resolveExecutor m p.session_id = .ok tgt →
        (explain_handler db m p).executed =
          [(if p.analyze = some true then "EXPLAIN ANALYZE FORMAT JSON "
            else "EXPLAIN FORMAT JSON ") ++ s]) := by
  refine ⟨?_, ?_, ?_⟩
  · cases hg : getSql p.sql with
    | none => simp [explain_handler, hg]
    | some s =>
      rw [explain_handler_char db m p s hg]
      cases hr : resolveExecutor m p.session_id <;> rfl
  · cases hg : getSql p.sql with
    | none => simp [explain_handler, hg]
    | some s =>
      rw [explain_handler_char db m p s hg]
      cases hr : resolveExecutor m p.session_id with
      | error e =>
        have he := resolveExecutor_error_shape hr
        subst he
        simp
      | ok tgt =>
        simpa using runOnTarget_no_denied db tgt (explainSql p.analyze s) p.ps
  · intro s hsql hne tgt htgt
    have hg := getSql_some hsql hne
    rw [explain_handler_char db m p s hg, htgt]
    simp only []
    rw [explainSql_if]

/-- Witness for claim C10 at a concrete explain request with analyze=true and
no session identifier (pool resolution). -/
theorem claim_C10_witness :
    (explain_handler okDb emptyMgr reqExplain).executed =
      [(if reqExplain.analyze = some true then "EXPLAIN ANALYZE FORMAT JSON "
        else "EXPLAIN FORMAT JSON ") ++ "SELECT 2"] :=
  (claim_C10_explain_shape okDb emptyMgr reqExplain).2.2 "SELECT 2" rfl (by decide)
    ExecTarget.pool rfl

theorem wf_empty : emptyMgr.WF := by
  decide

/-- Claim C2: with no session identifier, resolution uses the pool executor;
an identifier never returned by begin in a whole history from startup makes
both resolve and end fail with SessionNotFound, without creating a session;
and a stale identifier (minted once, since ended — committed, rolled back or
expired — so no longer registered) keeps failing both resolve and end with
SessionNotFound after any further history, the end attempt leaving the
registry unchanged — no revival, no silent re-creation. -/
theorem claim_C2_stale_ids_fail :
    (∀ m : SessionManager, resolveExecutor m none = .ok ExecTarget.pool) ∧
    (∀ (ops : List Op) (sid : String), sid ∉ (run emptyMgr ops).2 →
      (run emptyMgr ops).1.resolve sid = .error CQError.sessionNotFound ∧
      resolveExecutor (run emptyMgr ops).1 (some sid) = .error CQError.sessionNotFound ∧
      (∀ c, (run emptyMgr ops).1.end_session sid c = .error CQError.sessionNotFound) ∧
      (∀ c, step (run emptyMgr ops).1 (Op.endSession sid c) = ((run emptyMgr ops).1, none))) ∧
    (∀ (m : SessionManager) (sid : String), m.WF → sid ∈ m.usedIds →
      findSession m.sessions sid = none →
      ∀ ops : List Op,
        (run m ops).1.resolve sid = .error CQError.sessionNotFound ∧
        resolveExecutor (run m ops).1 (some sid) = .error CQError.sessionNotFound ∧
        (∀ c, (run m ops).1.end_session sid c = .error CQError.sessionNotFound) ∧
        (∀ c, step (run m ops).1 (Op.endSession sid c) = ((run m ops).1, none))) := by
  refine ⟨fun m => rfl, ?_, ?_⟩
  · intro ops sid hnot
    have hWF := wf_run wf_empty ops
    have hused : sid ∉ (run emptyMgr ops).1.usedIds := by
      intro hx
      rcases usedIds_run_sub ops hx with h | h
      · exact hnot h
      · simp [emptyMgr] at h
    have hdead := dead_of_not_used hWF hused
    refine ⟨resolve_dead hdead, ?_, fun c => end_dead c hdead,
      fun c => step_endSession_error (end_dead c hdead)⟩
    simp [resolveExecutor, resolve_dead hdead]
  · intro m sid hWF hused hdead ops
    have hrd := (run_preserves_dead ops hWF hused hdead).1
    refine ⟨resolve_dead hrd, ?_, fun c => end_dead c hrd,
      fun c => step_endSession_error (end_dead c hrd)⟩
    simp [resolveExecutor, resolve_dead hrd]

/-- Witness for claim C2: a fresh identifier is unknown after a history with
one begin, and a stale identifier fails both resolve and end after further
operations. -/
theorem claim_C2_witness :
    resolveExecutor emptyMgr none = .ok ExecTarget.pool ∧
    (run emptyMgr [Op.begin 0 10]).1.resolve "zz" = .error CQError.sessionNotFound ∧
    (run staleMgr [Op.begin 5 5]).1.resolve (mintId 0) = .error CQError.sessionNotFound ∧
    (run staleMgr [Op.begin 5 5]).1.end_session (mintId 0) true =
      .error CQError.sessionNotFound :=
  ⟨claim_C2_stale_ids_fail.1 emptyMgr,
    (claim_C2_stale_ids_fail.2.1 [Op.begin 0 10] "zz" (by decide)).1,
    (claim_C2_stale_ids_fail.2.2 staleMgr (mintId 0) (by decide) (by decide) (by decide)
      [Op.begin 5 5]).1,
    (claim_C2_stale_ids_fail.2.2 staleMgr (mintId 0) (by decide) (by decide) (by decide)
      [Op.begin 5 5]).2.2.1 true⟩

/-- Claim C5: along any history of operations from a well-formed registry,
the identifiers returned by begin are pairwise distinct and distinct from
every identifier previously or currently registered. -/
theorem claim_C5_begin_ids_distinct (m : SessionManager) (hWF : m.WF) (ops : List Op) :
    (run m ops).2.Nodup ∧ ∀ x ∈ (run m ops).2, x ∉ m.usedIds :=
  run_ids_fresh hWF ops

/-- Witness for claim C5: two begin operations from the empty registry return
distinct identifiers. -/
theorem claim_C5_witness :
    (run emptyMgr [Op.begin 0 10, Op.begin 0 10]).2.Nodup :=
  (claim_C5_begin_ids_distinct emptyMgr wf_empty [Op.begin 0 10, Op.begin 0 10]).1

/-- Claim C6: in one reaper pass, every registered session whose idle time
exceeds its TTL is evicted with its executor driven to ROLLED_BACK (every
eviction of a pass is a rollback, never a commit), and resolving its
identifier afterwards fails with SessionNotFound. -/
theorem claim_C6_reaper_rolls_back (m : SessionManager) (now : Nat) (sid : String)
    (s : Session) (hWF : m.WF) (hfind : findSession m.sessions sid = some s)
    (hexp : s.ttl < now - s.lastTouched) :
    (sid, TxState.ROLLED_BACK) ∈ (m.reap now).2 ∧
    (∀ q ∈ (m.reap now).2, q.2 = TxState.ROLLED_BACK) ∧
    (m.reap now).1.resolve sid = .error CQError.sessionNotFound := by
  obtain ⟨h1, h2, h3, h4⟩ := hWF
  have hmem : (sid, s) ∈ m.sessions := mem_of_findSession_some hfind
  have hexp2 : s.expired now = true := by
    simp only [Session.expired, decide_eq_true_eq]
    exact hexp
  refine ⟨?_, ?_, ?_⟩
  · simp only [SessionManager.reap, List.mem_map]
    refine ⟨(sid, s), List.mem_filter.mpr ⟨hmem, hexp2⟩, ?_⟩
    have hopen : s.exec.state = TxState.OPEN := h3 (sid, s) hmem
    simp [SessionManager.reapOne, SessionExecutor.rollback, hopen]
  · intro q hq
    simp only [SessionManager.reap, List.mem_map] at hq
    obtain ⟨p, hp, rfl⟩ := hq
    have hopen : p.2.exec.state = TxState.OPEN := h3 p (List.mem_filter.mp hp).1
    simp [SessionManager.reapOne, SessionExecutor.rollback, hopen]
  · have hdead : findSession (m.sessions.filter (fun p => !p.2.expired now)) sid = none :=
      findSession_filter_out h1 hfind (by simp [hexp2])
    exact resolve_dead hdead

/-- Witness for claim C6 at the concrete registry holding one expired
session. -/
theorem claim_C6_witness :
    (mintId 0, TxState.ROLLED_BACK) ∈ (reapMgr.reap 10).2 :=
  (claim_C6_reaper_rolls_back reapMgr 10 (mintId 0)
    { exec := { state := .OPEN, savepoints := [] }, lastTouched := 0, ttl := 3 }
    (by decide) (by decide) (by decide)).1

end ColdQuery
